import Mathlib

/-!
Verification development for the DigitalLab lab-results portal
(source: `app.py`, a Streamlit/SQLAlchemy application).

The application state is five relational tables (User, Patient, Doctor,
LabResult, Notification) plus a directory of uploaded blobs.  We embed the
tables as lists of records, the blob directory as an association list from
stored name to byte list, and each handler of `app.py` as a pure function
from inputs and state to result and new state.  Wall-clock effects
(`datetime.utcnow`) and randomness (`secrets.token_hex`) are passed in as
explicit arguments.  The DateTime / Date columns are represented as natural
numbers (an abstract timeline); `sent_at` / `created_at` columns, which are
engine-assigned defaults used by no handler, are not carried.
-/

namespace DigitalLab

/-- Configuration constant `MAX_CONTENT_LENGTH = 16 * 1024 * 1024` from app.py. -/
def MAX_CONTENT_LENGTH : Nat := 16 * 1024 * 1024

/-- Configuration constant `ALLOWED_EXTENSIONS` from app.py. -/
def ALLOWED_EXTENSIONS : List String := ["pdf", "png", "jpg", "jpeg", "txt", "doc", "docx"]

/-- Row of the `user` table.  `phone` is the raw Streamlit text input: the
empty string plays the role of Python-falsy "no phone". -/
structure User where
  id : Nat
  username : String
  email : String
  password_hash : String
  user_type : String
  phone : String
  deriving Repr, DecidableEq

/-- Row of the `patient` table. -/
structure Patient where
  id : Nat
  user_id : Nat
  first_name : String
  last_name : String
  date_of_birth : Nat
  gender : String
  address : String
  emergency_contact : String
  deriving Repr, DecidableEq

/-- Row of the `doctor` table. -/
structure Doctor where
  id : Nat
  user_id : Nat
  first_name : String
  last_name : String
  specialization : String
  license_number : String
  hospital : String
  deriving Repr, DecidableEq

/-- Row of the `lab_result` table.  `file_path` is the stored filename in the
uploads folder ("" when absent). -/
structure LabResult where
  id : Nat
  patient_id : Nat
  test_type : String
  test_date : Nat
  result_date : Nat
  status : String
  file_path : String
  notes : String
  lab_technician : String
  deriving Repr, DecidableEq

/-- Row of the `notification` table. -/
structure Notification where
  id : Nat
  lab_result_id : Nat
  notification_type : String
  status : String
  recipient : String
  deriving Repr, DecidableEq

/-- The relational store: the five tables of the SQLite database. -/
structure DB where
  users : List User
  patients : List Patient
  doctors : List Doctor
  lab_results : List LabResult
  notifications : List Notification
  deriving Repr, DecidableEq

/-- The uploads folder: stored filename to file bytes (each byte a Nat). -/
def BlobStore := List (String × List Nat)

instance : DecidableEq BlobStore := by
  unfold BlobStore; infer_instance

/-- Combined persistent state: database plus uploads folder. -/
structure AppState where
  db : DB
  blobs : List (String × List Nat)
  deriving Repr, DecidableEq

/-! ### External collaborator: werkzeug password hashing

`generate_password_hash` / `check_password_hash` are external primitives with
the narrow contract that verification succeeds exactly for the hashed
password.  We model them by a tagged injection satisfying that contract. -/

/-- Model of werkzeug `generate_password_hash` (salted one-way hash,
modelled by its contract: check succeeds iff the password matches). -/
def generate_password_hash (password : String) : String :=
  "pbkdf2:" ++ password

/-- Model of werkzeug `check_password_hash`. -/
def check_password_hash (h password : String) : Bool :=
  h = generate_password_hash password

/-- `User.check_password` from app.py: False on an empty stored hash,
otherwise werkzeug verification. -/
def User.check_password (u : User) (password : String) : Bool :=
  if u.password_hash = "" then false
  else check_password_hash u.password_hash password

/-! ### Helper functions of app.py -/

/-- Characters after the last '.' of a string: Python
`filename.rsplit('.', 1)[1]` when '.' occurs in the string. -/
def extAfterLastDot (s : String) : String :=
  ((s.toList.reverse.takeWhile (fun c => c ≠ '.')).reverse).asString

/-- Python `str.lower()`, character by character (the extensions compared
in app.py are ASCII). -/
def lowerString (s : String) : String :=
  (s.toList.map Char.toLower).asString

/-- `allowed_file` from app.py: requires a '.' in the name and the
(lower-cased) final extension to be in `ALLOWED_EXTENSIONS`. -/
def allowed_file (filename : String) : Bool :=
  if ¬ (filename.toList.contains '.') then false
  else ALLOWED_EXTENSIONS.contains (lowerString (extAfterLastDot filename))

/-- `secure_filename` from app.py: minimal sanitization replacing "/",
"\\" and " " by "_". -/
def secure_filename (filename : String) : String :=
  (filename.toList.map
    (fun c => if c = '/' ∨ c = '\\' ∨ c = ' ' then '_' else c)).asString

/-- `unique_filename` from app.py.  The timestamp string `ts`
(`datetime.utcnow().strftime(...)`, second resolution) and the random salt
(`secrets.token_hex(6)`, 12 hex characters) are explicit arguments. -/
def unique_filename (ts salt filename : String) : String :=
  ts ++ "_" ++ salt ++ "_" ++ secure_filename filename

/-- The file payload handed over by `st.file_uploader`. -/
structure UploadedFile where
  name : String
  data : List Nat
  deriving Repr, DecidableEq

/-- Error kinds raised by `save_uploaded_file` (distinct `ValueError`
messages in app.py). -/
inductive UploadErr where
  | NoFile
  | UnsupportedFileType
  | FileTooLarge
  deriving Repr, DecidableEq

/-- `save_uploaded_file` from app.py: checks file presence, then the
extension allow-list, then the 16 MiB size bound, and only then generates
the stored name and writes the blob.  Returns the stored filename and the
updated uploads folder. -/
def save_uploaded_file (ts salt : String) (uploaded_file : Option UploadedFile)
    (blobs : List (String × List Nat)) :
    Except UploadErr (String × List (String × List Nat)) :=
  match uploaded_file with
  | none => .error .NoFile
  | some f =>
    if ¬ allowed_file f.name then .error .UnsupportedFileType
    else if f.data.length > MAX_CONTENT_LENGTH then .error .FileTooLarge
    else
      let fname := unique_filename ts salt f.name
      .ok (fname, (fname, f.data) :: blobs)

/-! ### Storage Layer lookup helpers of app.py -/

/-- `get_user_by_username` from app.py (`.first()` on the filtered query). -/
def get_user_by_username (db : DB) (username : String) : Option User :=
  db.users.find? (fun u => u.username = username)

/-- `get_user_by_email` from app.py. -/
def get_user_by_email (db : DB) (email : String) : Option User :=
  db.users.find? (fun u => u.email = email)

/-- `get_doctor_by_license` from app.py. -/
def get_doctor_by_license (db : DB) (lic : String) : Option Doctor :=
  db.doctors.find? (fun d => d.license_number = lic)

/-- Primary-key lookup `db.query(Patient).get(pid)`. -/
def get_patient_by_id (db : DB) (pid : Nat) : Option Patient :=
  db.patients.find? (fun p => p.id = pid)

/-- Primary-key lookup `db.query(User).get(uid)` (used to resolve the
`patient.user` relationship). -/
def get_user_by_id (db : DB) (uid : Nat) : Option User :=
  db.users.find? (fun u => u.id = uid)

/-- Auto-assigned integer primary key: one more than the largest id in
use (SQLite assigns max rowid + 1). -/
def fresh_id (ids : List Nat) : Nat :=
  ids.foldr max 0 + 1

/-! ### Register handler -/

/-- The raw form inputs of the Register screen.  Streamlit `text_input`
yields a string (empty when left blank, never None); `date_input` and
`selectbox` always yield a value.  For the lab_tech role app.py sets
specialization / license_number / hospital to "". -/
structure RegForm where
  username : String
  email : String
  password : String
  phone : String
  first_name : String
  last_name : String
  dob : Nat
  gender : String
  address : String
  emergency_contact : String
  specialization : String
  license_number : String
  hospital : String
  deriving Repr, DecidableEq

/-- Error kinds of the Register handler (its distinct `st.error` messages). -/
inductive RegErr where
  | ValidationError
  | DuplicateUsername
  | DuplicateEmail
  | DuplicateLicense
  deriving Repr, DecidableEq

/-- Outcome of the Register handler. -/
inductive RegResult where
  | success
  | failure (e : RegErr)
  deriving Repr, DecidableEq

/-- The Register handler of app.py: presence check for username, email and
password only, then the three uniqueness pre-checks, then insertion of the
User row plus the role-specific profile row, committed together.  Returns
the outcome and the resulting database (unchanged on failure: every check
happens before any write). -/
def register (db : DB) (role : String) (form : RegForm) : RegResult × DB :=
  if form.username = "" ∨ form.email = "" ∨ form.password = "" then
    (.failure .ValidationError, db)
  else if (get_user_by_username db form.username).isSome then
    (.failure .DuplicateUsername, db)
  else if (get_user_by_email db form.email).isSome then
    (.failure .DuplicateEmail, db)
  else if role = "doctor" ∧ (get_doctor_by_license db form.license_number).isSome then
    (.failure .DuplicateLicense, db)
  else
    let uid := fresh_id (db.users.map (fun u => u.id))
    let user : User :=
      { id := uid, username := form.username, email := form.email,
        password_hash := generate_password_hash form.password,
        user_type := role, phone := form.phone }
    let db1 : DB := { db with users := db.users ++ [user] }
    if role = "patient" then
      let patient : Patient :=
        { id := fresh_id (db.patients.map (fun p => p.id)), user_id := uid,
          first_name := form.first_name, last_name := form.last_name,
          date_of_birth := form.dob, gender := form.gender,
          address := form.address, emergency_contact := form.emergency_contact }
      (.success, { db1 with patients := db1.patients ++ [patient] })
    else if role = "doctor" then
      let doctor : Doctor :=
        { id := fresh_id (db.doctors.map (fun d => d.id)), user_id := uid,
          first_name := form.first_name, last_name := form.last_name,
          specialization := form.specialization,
          license_number := form.license_number, hospital := form.hospital }
      (.success, { db1 with doctors := db1.doctors ++ [doctor] })
    else
      (.success, db1)

/-! ### Login handler -/

/-- Outcome of the Login handler: either the authenticated user's row is
loaded into the session, or the single failure message
"Login failed. Check username and password." is shown.  The failure
constructor carries no data: both failure causes produce the same value. -/
inductive AuthResult where
  | success (u : User)
  | failure
  deriving Repr, DecidableEq

/-- The Login handler of app.py: look up the user by username; succeed only
when a row was found and `check_password` passes; otherwise the single
generic failure. -/
def authenticate (db : DB) (username password : String) : AuthResult :=
  match get_user_by_username db username with
  | some user => if user.check_password password then .success user else .failure
  | none => .failure

/-! ### Session state and the Upload Result handler -/

/-- The minimal identity kept in `st.session_state` by
`login_user_in_session`. -/
structure SessionState where
  user_id : Option Nat
  username : String
  user_type : String
  deriving Repr, DecidableEq

/-- Python truthiness of `st.session_state.get('user_id')`: None and 0 are
falsy. -/
def truthy_id : Option Nat → Bool
  | none => false
  | some n => n ≠ 0

/-- Outcome of the Upload Result handler, one constructor per distinct
user-visible message of app.py.  `commitFailed` is the
`except ... db.rollback()` path ("Upload failed: ..."). -/
inductive UploadOutcome where
  | denied
  | validationFailed (msg : String)
  | uploadFailed (e : UploadErr)
  | commitFailed
  | success
  deriving Repr, DecidableEq

/-- The LabResult row built by the Upload Result handler (status is set
directly to "completed", the file reference is the stored name, and the
technician is the session username). -/
def new_lab_result (sess : SessionState) (db : DB) (patient_id : Nat)
    (test_type : String) (test_date result_date : Nat)
    (notes saved_name : String) : LabResult :=
  { id := fresh_id (db.lab_results.map (fun r => r.id)),
    patient_id := patient_id, test_type := test_type, test_date := test_date,
    result_date := result_date, status := "completed", file_path := saved_name,
    notes := notes, lab_technician := sess.username }

/-- The recipient expression of app.py:
`patient.user.phone if patient.user and patient.user.phone else patient.user.email`
(Python truthiness: the empty string counts as no phone). -/
def notification_recipient (puser : User) : String :=
  if puser.phone ≠ "" then puser.phone else puser.email

/-- The Notification row built by the Upload Result handler. -/
def new_notification (db1 : DB) (rid : Nat) (recipient : String) : Notification :=
  { id := fresh_id (db1.notifications.map (fun n => n.id)),
    lab_result_id := rid, notification_type := "portal", status := "sent",
    recipient := recipient }

/-- The database half of the Upload Result handler of app.py, entered after
the file has been saved.  Steps in source order: first `db.commit()`
persisting the LabResult, resolution of the target patient and its user to
pick the notification recipient, second `db.commit()` persisting the
Notification.

The two commits are separate transactions; `commit1_ok` / `commit2_ok` say
whether the backing engine accepts each one (a refused commit raises, is
caught by the handler's `except`, and `db.rollback()` discards only the
pending adds of the current transaction — never a commit that already
succeeded).  A missing target patient or missing linked user row makes the
recipient expression `patient.user.phone / patient.user.email` raise, which
lands in the same `except` path after the first commit. -/
def upload_commit_phase (sess : SessionState) (st0 : AppState)
    (patient_id : Nat) (test_type : String) (test_date result_date : Nat)
    (notes saved_name : String) (blobs1 : List (String × List Nat))
    (commit1_ok commit2_ok : Bool) : UploadOutcome × AppState :=
  let lab_result : LabResult :=
    new_lab_result sess st0.db patient_id test_type test_date result_date
      notes saved_name
  if ¬ commit1_ok then
    (.commitFailed, { st0 with blobs := blobs1 })
  else
    let db1 : DB := { st0.db with lab_results := st0.db.lab_results ++ [lab_result] }
    match get_patient_by_id db1 patient_id with
    | none => (.commitFailed, { db := db1, blobs := blobs1 })
    | some patient =>
      match get_user_by_id db1 patient.user_id with
      | none => (.commitFailed, { db := db1, blobs := blobs1 })
      | some puser =>
        let notification : Notification :=
          new_notification db1 lab_result.id (notification_recipient puser)
        if ¬ commit2_ok then
          (.commitFailed, { db := db1, blobs := blobs1 })
        else
          (.success,
           { db := { db1 with notifications := db1.notifications ++ [notification] },
             blobs := blobs1 })

/-- The guard part of the Upload Result handler (source order: role gate,
test validation, file save), dispatching to `upload_commit_phase` for the
database half of the workflow. -/
def upload_result (sess : SessionState) (st0 : AppState)
    (patient_id : Nat) (test_type : String) (test_date result_date : Nat)
    (notes : String) (uploaded_file : Option UploadedFile) (ts salt : String)
    (commit1_ok commit2_ok : Bool) : UploadOutcome × AppState :=
  if ¬ truthy_id sess.user_id ∨ sess.user_type ≠ "lab_tech" then
    (.denied, st0)
  else if test_type = "" then
    (.validationFailed "Test type is required.", st0)
  else if uploaded_file.isNone then
    (.validationFailed "Please select a result file to upload.", st0)
  else
    match save_uploaded_file ts salt uploaded_file st0.blobs with
    | .error e => (.uploadFailed e, st0)
    | .ok (saved_name, blobs1) =>
      upload_commit_phase sess st0 patient_id test_type test_date result_date
        notes saved_name blobs1 commit1_ok commit2_ok

/-! ### Patient dashboard query -/

/-- Insertion step for the descending sort below. -/
def insert_desc_by (f : LabResult → Nat) (x : LabResult) :
    List LabResult → List LabResult
  | [] => [x]
  | y :: ys => if f x ≤ f y then y :: insert_desc_by f x ys else x :: y :: ys

/-- Descending insertion sort, modelling `order_by(... .desc())`. -/
def sort_desc_by (f : LabResult → Nat) : List LabResult → List LabResult
  | [] => []
  | x :: xs => insert_desc_by f x (sort_desc_by f xs)

/-- The patient branch of the Dashboard handler: fetch the first Patient
row whose user_id is the acting user's id, then list the LabResults whose
patient_id is that profile's id, ordered by test_date descending.  Any
other role, or a missing profile, yields no rows from this branch. -/
def patient_dashboard_results (db : DB) (user : User) : List LabResult :=
  if user.user_type = "patient" then
    match db.patients.find? (fun p => p.user_id = user.id) with
    | none => []
    | some patient =>
      sort_desc_by (fun r => r.test_date)
        (db.lab_results.filter (fun r => r.patient_id = patient.id))
  else []

/-! ### Concrete fixtures (the end-to-end scenario of the spec: a patient
"p1", a lab technician "t1", one uploaded result) -/

/-- Fixture: the empty database. -/
def emptyDB : DB := { users := [], patients := [], doctors := [], lab_results := [], notifications := [] }

/-- Fixture: patient account "p1" (no phone supplied). -/
def fixPatientUser : User :=
  { id := 1, username := "p1", email := "p1@x.com",
    password_hash := generate_password_hash "x", user_type := "patient", phone := "" }

/-- Fixture: the Patient profile of "p1". -/
def fixPatient : Patient :=
  { id := 1, user_id := 1, first_name := "Ann", last_name := "Bee",
    date_of_birth := 0, gender := "female", address := "", emergency_contact := "" }

/-- Fixture: lab technician account "t1". -/
def fixTechUser : User :=
  { id := 2, username := "t1", email := "t1@x.com",
    password_hash := generate_password_hash "y", user_type := "lab_tech", phone := "" }

/-- Fixture: a registered doctor holding license "L123". -/
def fixDoctor : Doctor :=
  { id := 1, user_id := 3, first_name := "Doc", last_name := "One",
    specialization := "path", license_number := "L123", hospital := "" }

/-- Fixture: a LabResult belonging to fixPatient. -/
def fixResult : LabResult :=
  { id := 1, patient_id := 1, test_type := "CBC", test_date := 5, result_date := 6,
    status := "completed", file_path := "f.pdf", notes := "", lab_technician := "t1" }

/-- Fixture: database holding the two accounts, the profile and one result. -/
def fixDB : DB :=
  { users := [fixPatientUser, fixTechUser], patients := [fixPatient], doctors := [fixDoctor],
    lab_results := [fixResult], notifications := [] }

/-- Fixture: application state over fixDB with an empty uploads folder. -/
def fixState : AppState := { db := fixDB, blobs := [] }

/-- Fixture: the session established by logging "t1" in. -/
def fixSess : SessionState := { user_id := some 2, username := "t1", user_type := "lab_tech" }

/-- Fixture: a small well-formed upload payload. -/
def fixFile : UploadedFile := { name := "report.pdf", data := [1, 2, 3] }

/-- Fixture: a patient registration form whose account fields are filled
but whose first_name was left blank. -/
def fixFormNoName : RegForm :=
  { username := "p9", email := "p9@x.com", password := "pw", phone := "",
    first_name := "", last_name := "", dob := 0, gender := "male", address := "",
    emergency_contact := "", specialization := "", license_number := "", hospital := "" }

/-- Fixture: a doctor registration form reusing license "L123". -/
def fixFormDupLicense : RegForm :=
  { username := "d2", email := "d2@x.com", password := "pw", phone := "",
    first_name := "New", last_name := "Doc", dob := 0, gender := "", address := "",
    emergency_contact := "", specialization := "derm", license_number := "L123",
    hospital := "" }

/-- Fixture: a registration form with a blank password. -/
def fixFormNoPassword : RegForm :=
  { username := "p8", email := "p8@x.com", password := "", phone := "",
    first_name := "A", last_name := "B", dob := 0, gender := "male", address := "",
    emergency_contact := "", specialization := "", license_number := "", hospital := "" }

/-! ## Helper lemmas -/

theorem save_uploaded_file_ok (ts salt : String) (f : UploadedFile)
    (blobs : List (String × List Nat))
    (hext : allowed_file f.name = true)
    (hsize : f.data.length ≤ MAX_CONTENT_LENGTH) :
    save_uploaded_file ts salt (some f) blobs =
      .ok (unique_filename ts salt f.name,
           (unique_filename ts salt f.name, f.data) :: blobs) := by
  simp [save_uploaded_file, hext, Nat.not_lt.mpr hsize]

theorem allowed_file_false_of_bad_ext (filename : String)
    (hext : ALLOWED_EXTENSIONS.contains (lowerString (extAfterLastDot filename)) = false) :
    allowed_file filename = false := by
  unfold allowed_file
  simp at hext ⊢
  intro _
  exact hext

theorem mem_insert_desc_by (f : LabResult → Nat) (x a : LabResult)
    (l : List LabResult) :
    a ∈ insert_desc_by f x l ↔ a = x ∨ a ∈ l := by
  induction l with
  | nil => simp [insert_desc_by]
  | cons y ys ih =>
    simp only [insert_desc_by]
    by_cases h : f x ≤ f y
    · rw [if_pos h]
      simp only [List.mem_cons, ih]
      tauto
    · rw [if_neg h]
      simp

theorem mem_sort_desc_by (f : LabResult → Nat) (a : LabResult)
    (l : List LabResult) :
    a ∈ sort_desc_by f l ↔ a ∈ l := by
  induction l with
  | nil => simp [sort_desc_by]
  | cons x xs ih =>
    simp only [sort_desc_by, mem_insert_desc_by, ih, List.mem_cons]

/-! ## Claim theorems -/

/-- C10: for every filename that contains no '.' character, allowed_file
returns False, so a file with no extension at all is rejected by the upload
path rather than treated as having an empty or default extension. -/
theorem allowed_file_no_dot (filename : String)
    (h : filename.toList.contains '.' = false) :
    allowed_file filename = false := by
  unfold allowed_file
  rw [h]
  simp

/-- Witness for C10 at the concrete filename "noext". -/
theorem allowed_file_no_dot_witness :
    ("noext".toList.contains '.' = false) ∧ allowed_file "noext" = false :=
  ⟨by decide, allowed_file_no_dot "noext" (by decide)⟩

/-- C4: a filename whose final extension (lower-cased) is outside the
allow-list is rejected by save_uploaded_file with the UnsupportedFileType
error kind before any blob write, the Upload Result handler then leaves the
whole application state (database and uploads folder) unchanged, and this
error kind is distinct from FileTooLarge. -/
theorem unsupported_extension_rejected (sess : SessionState) (st0 : AppState)
    (pid td rd : Nat) (tt notes ts salt : String) (f : UploadedFile)
    (c1 c2 : Bool)
    (hext : ALLOWED_EXTENSIONS.contains (lowerString (extAfterLastDot f.name)) = false)
    (hid : truthy_id sess.user_id = true)
    (hrole : sess.user_type = "lab_tech")
    (htt : tt ≠ "") :
    save_uploaded_file ts salt (some f) st0.blobs = .error .UnsupportedFileType ∧
    upload_result sess st0 pid tt td rd notes (some f) ts salt c1 c2 =
      (.uploadFailed .UnsupportedFileType, st0) ∧
    UploadErr.UnsupportedFileType ≠ UploadErr.FileTooLarge := by
  have hbad : allowed_file f.name = false := allowed_file_false_of_bad_ext f.name hext
  have hsave : save_uploaded_file ts salt (some f) st0.blobs = .error .UnsupportedFileType := by
    simp [save_uploaded_file, hbad]
  refine ⟨hsave, ?_, by decide⟩
  simp [upload_result, hid, hrole, htt, hsave]

/-- Witness for C4 at the concrete filename "malware.exe". -/
theorem unsupported_extension_rejected_witness :
    (ALLOWED_EXTENSIONS.contains (lowerString (extAfterLastDot "malware.exe")) = false ∧
     truthy_id fixSess.user_id = true ∧ fixSess.user_type = "lab_tech" ∧
     ("CBC" : String) ≠ "") ∧
    (save_uploaded_file "TS" "SALT" (some { name := "malware.exe", data := [1] })
        fixState.blobs = .error .UnsupportedFileType ∧
     upload_result fixSess fixState 1 "CBC" 5 6 ""
        (some { name := "malware.exe", data := [1] }) "TS" "SALT" true true =
       (.uploadFailed .UnsupportedFileType, fixState) ∧
     UploadErr.UnsupportedFileType ≠ UploadErr.FileTooLarge) :=
  ⟨⟨by decide, by decide, by decide, by decide⟩,
   unsupported_extension_rejected fixSess fixState 1 5 6 "CBC" "" "TS" "SALT"
     { name := "malware.exe", data := [1] } true true
     (by decide) (by decide) (by decide) (by decide)⟩

/-- C3: with an allow-listed extension, a payload of exactly 16 MiB is
accepted by save_uploaded_file, while any strictly larger payload is
rejected with the FileTooLarge error kind, and such a rejected upload
leaves the whole application state unchanged — no LabResult row, no
Notification row and no new blob. -/
theorem put_size_boundary (sess : SessionState) (st0 : AppState)
    (pid td rd : Nat) (tt notes ts salt : String) (f : UploadedFile)
    (c1 c2 : Bool)
    (hext : allowed_file f.name = true)
    (hid : truthy_id sess.user_id = true)
    (hrole : sess.user_type = "lab_tech")
    (htt : tt ≠ "") :
    (f.data.length = MAX_CONTENT_LENGTH →
      save_uploaded_file ts salt (some f) st0.blobs =
        .ok (unique_filename ts salt f.name,
             (unique_filename ts salt f.name, f.data) :: st0.blobs)) ∧
    (f.data.length > MAX_CONTENT_LENGTH →
      save_uploaded_file ts salt (some f) st0.blobs = .error .FileTooLarge ∧
      upload_result sess st0 pid tt td rd notes (some f) ts salt c1 c2 =
        (.uploadFailed .FileTooLarge, st0)) := by
  constructor
  · intro hlen
    exact save_uploaded_file_ok ts salt f st0.blobs hext (le_of_eq hlen)
  · intro hbig
    have hsave : save_uploaded_file ts salt (some f) st0.blobs = .error .FileTooLarge := by
      simp [save_uploaded_file, hext, hbig]
    refine ⟨hsave, ?_⟩
    simp [upload_result, hid, hrole, htt, hsave]

/-- Witness for C3 (hypotheses discharged at the fixture technician session
and the filename "report.pdf"). -/
theorem put_size_boundary_witness :
    (allowed_file "report.pdf" = true ∧ truthy_id fixSess.user_id = true ∧
     fixSess.user_type = "lab_tech" ∧ ("CBC" : String) ≠ "") ∧
    ((List.replicate MAX_CONTENT_LENGTH 0).length = MAX_CONTENT_LENGTH →
      save_uploaded_file "TS" "SALT"
          (some { name := "report.pdf", data := List.replicate MAX_CONTENT_LENGTH 0 })
          fixState.blobs =
        .ok (unique_filename "TS" "SALT" "report.pdf",
             (unique_filename "TS" "SALT" "report.pdf",
              List.replicate MAX_CONTENT_LENGTH 0) :: fixState.blobs)) ∧
    ((List.replicate MAX_CONTENT_LENGTH 0).length > MAX_CONTENT_LENGTH →
      save_uploaded_file "TS" "SALT"
          (some { name := "report.pdf", data := List.replicate MAX_CONTENT_LENGTH 0 })
          fixState.blobs = .error .FileTooLarge ∧
      upload_result fixSess fixState 1 "CBC" 5 6 ""
          (some { name := "report.pdf", data := List.replicate MAX_CONTENT_LENGTH 0 })
          "TS" "SALT" true true =
        (.uploadFailed .FileTooLarge, fixState)) :=
  ⟨⟨by decide, by decide, by decide, by decide⟩,
   put_size_boundary fixSess fixState 1 5 6 "CBC" "" "TS" "SALT"
     { name := "report.pdf", data := List.replicate MAX_CONTENT_LENGTH 0 } true true
     (by decide) (by decide) (by decide) (by decide)⟩

/-- C5: registering a doctor whose license_number equals an existing
doctor's fails with a duplicate error (never silently, never with a mere
ValidationError) and returns the database unchanged — in particular no User
row for the attempt is persisted, since the uniqueness pre-checks all run
before any write; when the attempt's username and email are fresh, the
error is precisely DuplicateLicense. -/
theorem duplicate_license_rejected (db : DB) (form : RegForm) (d : Doctor)
    (hu : form.username ≠ "") (he : form.email ≠ "") (hp : form.password ≠ "")
    (hd : get_doctor_by_license db form.license_number = some d) :
    (∃ e, register db "doctor" form = (.failure e, db) ∧ e ≠ RegErr.ValidationError) ∧
    (get_user_by_username db form.username = none →
     get_user_by_email db form.email = none →
     register db "doctor" form = (.failure .DuplicateLicense, db)) := by
  constructor
  · by_cases h1 : (get_user_by_username db form.username).isSome
    · exact ⟨.DuplicateUsername, by simp [register, hu, he, hp, h1], by decide⟩
    · by_cases h2 : (get_user_by_email db form.email).isSome
      · exact ⟨.DuplicateEmail, by simp [register, hu, he, hp, h1, h2], by decide⟩
      · exact ⟨.DuplicateLicense, by simp [register, hu, he, hp, h1, h2, hd], by decide⟩
  · intro hnu hne
    simp [register, hu, he, hp, hnu, hne, hd]

/-- Witness for C5 at the fixture database holding license "L123". -/
theorem duplicate_license_rejected_witness :
    (fixFormDupLicense.username ≠ "" ∧ fixFormDupLicense.email ≠ "" ∧
     fixFormDupLicense.password ≠ "" ∧
     get_doctor_by_license fixDB fixFormDupLicense.license_number = some fixDoctor) ∧
    ((∃ e, register fixDB "doctor" fixFormDupLicense = (.failure e, fixDB) ∧
        e ≠ RegErr.ValidationError) ∧
     (get_user_by_username fixDB fixFormDupLicense.username = none →
      get_user_by_email fixDB fixFormDupLicense.email = none →
      register fixDB "doctor" fixFormDupLicense = (.failure .DuplicateLicense, fixDB))) :=
  ⟨⟨by decide, by decide, by decide, by decide⟩,
   duplicate_license_rejected fixDB fixFormDupLicense fixDoctor
     (by decide) (by decide) (by decide) (by decide)⟩

/-- C6: a login attempt against an existing username with a wrong password
and a login attempt against a username matching no User both produce the
same parameterless failure value, so the two causes are indistinguishable
from the result. -/
theorem auth_failure_uniform (db : DB) (u1 p1 u2 p2 : String) (usr : User)
    (h1 : get_user_by_username db u1 = some usr)
    (h2 : usr.check_password p1 = false)
    (h3 : get_user_by_username db u2 = none) :
    authenticate db u1 p1 = AuthResult.failure ∧
    authenticate db u2 p2 = AuthResult.failure ∧
    authenticate db u1 p1 = authenticate db u2 p2 := by
  have e1 : authenticate db u1 p1 = AuthResult.failure := by
    simp [authenticate, h1, h2]
  have e2 : authenticate db u2 p2 = AuthResult.failure := by
    simp [authenticate, h3]
  exact ⟨e1, e2, e1.trans e2.symm⟩

/-- Witness for C6: user "p1" with a wrong password versus the unknown
username "nobody". -/
theorem auth_failure_uniform_witness :
    (get_user_by_username fixDB "p1" = some fixPatientUser ∧
     fixPatientUser.check_password "wrong" = false ∧
     get_user_by_username fixDB "nobody" = none) ∧
    (authenticate fixDB "p1" "wrong" = AuthResult.failure ∧
     authenticate fixDB "nobody" "anything" = AuthResult.failure ∧
     authenticate fixDB "p1" "wrong" = authenticate fixDB "nobody" "anything") :=
  ⟨⟨by decide, by decide, by decide⟩,
   auth_failure_uniform fixDB "p1" "wrong" "nobody" "anything" fixPatientUser
     (by decide) (by decide) (by decide)⟩

/-- C8 counterexample: registering a patient whose first_name was left
blank succeeds and writes rows, instead of failing with a ValidationError
as the claim requires — the Register handler never checks the role-specific
fields. -/
theorem register_skips_profile_fields_cex :
    fixFormNoName.first_name = "" ∧
    (register emptyDB "patient" fixFormNoName).fst = RegResult.success ∧
    (register emptyDB "patient" fixFormNoName).snd ≠ emptyDB := by
  refine ⟨rfl, by decide, by decide⟩

/-- C8 as amended: the Register handler checks, before any write, that
username, email and password are present, and fails with a ValidationError
when any of the three is blank (the database is returned unchanged);
role-specific profile fields are not validated. -/
theorem register_account_fields_only (db : DB) (role : String) (form : RegForm)
    (h : form.username = "" ∨ form.email = "" ∨ form.password = "") :
    register db role form = (.failure .ValidationError, db) := by
  simp only [register, if_pos h]

/-- Witness for the amended C8: a form with a blank password. -/
theorem register_account_fields_only_witness :
    (fixFormNoPassword.username = "" ∨ fixFormNoPassword.email = "" ∨
     fixFormNoPassword.password = "") ∧
    register fixDB "patient" fixFormNoPassword = (.failure .ValidationError, fixDB) :=
  ⟨by decide,
   register_account_fields_only fixDB "patient" fixFormNoPassword (by decide)⟩

/-- C9 counterexample: the tab character is whitespace occurring in the
original filename, and it survives into the generated stored name —
secure_filename replaces only '/', '\\' and the space character. -/
theorem unique_filename_whitespace_cex :
    '\t' ∈ "my\treport.pdf".toList ∧
    '\t'.isWhitespace = true ∧
    '\t' ∈ (unique_filename "20240101000000" "deadbeefcafe" "my\treport.pdf").toList := by
  decide

/-- C9 as amended: for a fixed timestamp component and original filename,
distinct random salt components always yield distinct stored names (so no
collision within one second for identical filenames as long as the salts
differ), and the sanitized filename component contains no '/', no '\\' and
no space character; whitespace other than the space character is not
sanitized. -/
theorem unique_filename_distinct_and_sanitized (ts s1 s2 fn : String)
    (hne : s1 ≠ s2) :
    unique_filename ts s1 fn ≠ unique_filename ts s2 fn ∧
    ∀ c ∈ (secure_filename fn).toList, c ≠ '/' ∧ c ≠ '\\' ∧ c ≠ ' ' := by
  constructor
  · intro heq
    apply hne
    apply String.ext
    have hd := congrArg String.data heq
    simp only [unique_filename, String.data_append] at hd
    exact List.append_cancel_left (List.append_cancel_right (List.append_cancel_right hd))
  · intro c hc
    have hc2 : c ∈ fn.toList.map
        (fun a => if a = '/' ∨ a = '\\' ∨ a = ' ' then '_' else a) := hc
    rw [List.mem_map] at hc2
    obtain ⟨a, _, ha⟩ := hc2
    subst ha
    by_cases h : a = '/' ∨ a = '\\' ∨ a = ' '
    · rw [if_pos h]
      refine ⟨by decide, by decide, by decide⟩
    · rw [if_neg h]
      push_neg at h
      exact h

/-! ### Lemmas about the two phases of the Upload Result handler -/

theorem get_patient_by_id_update (db : DB) (l : List LabResult) (pid : Nat) :
    get_patient_by_id { db with lab_results := l } pid = get_patient_by_id db pid := rfl

theorem get_user_by_id_update (db : DB) (l : List LabResult) (uid : Nat) :
    get_user_by_id { db with lab_results := l } uid = get_user_by_id db uid := rfl

theorem new_notification_update (db : DB) (l : List LabResult) (rid : Nat) (r : String) :
    new_notification { db with lab_results := l } rid r = new_notification db rid r := rfl

theorem upload_result_guards_ok (sess : SessionState) (st0 : AppState)
    (pid td rd : Nat) (tt notes ts salt : String) (f : UploadedFile)
    (c1 c2 : Bool)
    (hid : truthy_id sess.user_id = true)
    (hrole : sess.user_type = "lab_tech")
    (htt : tt ≠ "")
    (hext : allowed_file f.name = true)
    (hsize : f.data.length ≤ MAX_CONTENT_LENGTH) :
    upload_result sess st0 pid tt td rd notes (some f) ts salt c1 c2 =
      upload_commit_phase sess st0 pid tt td rd notes
        (unique_filename ts salt f.name)
        ((unique_filename ts salt f.name, f.data) :: st0.blobs) c1 c2 := by
  simp [upload_result, hid, hrole, htt,
        save_uploaded_file_ok ts salt f st0.blobs hext hsize]

theorem upload_commit_phase_commit1_fail (sess : SessionState) (st0 : AppState)
    (pid td rd : Nat) (tt notes nm : String) (bl : List (String × List Nat))
    (c2 : Bool) :
    upload_commit_phase sess st0 pid tt td rd notes nm bl false c2 =
      (.commitFailed, { st0 with blobs := bl }) := by
  simp [upload_commit_phase]

theorem upload_commit_phase_commit2_fail (sess : SessionState) (st0 : AppState)
    (pid td rd : Nat) (tt notes nm : String) (bl : List (String × List Nat))
    (patient : Patient) (puser : User)
    (hpat : get_patient_by_id st0.db pid = some patient)
    (huser : get_user_by_id st0.db patient.user_id = some puser) :
    upload_commit_phase sess st0 pid tt td rd notes nm bl true false =
      (.commitFailed,
       { db := { st0.db with lab_results := st0.db.lab_results ++
                   [new_lab_result sess st0.db pid tt td rd notes nm] },
         blobs := bl }) := by
  have hpat2 : get_patient_by_id
      { st0.db with lab_results := st0.db.lab_results ++
        [new_lab_result sess st0.db pid tt td rd notes nm] } pid = some patient := hpat
  have huser2 : get_user_by_id
      { st0.db with lab_results := st0.db.lab_results ++
        [new_lab_result sess st0.db pid tt td rd notes nm] } patient.user_id = some puser := huser
  simp [upload_commit_phase, hpat2, huser2]

theorem upload_commit_phase_both_ok (sess : SessionState) (st0 : AppState)
    (pid td rd : Nat) (tt notes nm : String) (bl : List (String × List Nat))
    (patient : Patient) (puser : User)
    (hpat : get_patient_by_id st0.db pid = some patient)
    (huser : get_user_by_id st0.db patient.user_id = some puser) :
    upload_commit_phase sess st0 pid tt td rd notes nm bl true true =
      (.success,
       { db := { st0.db with
                   lab_results := st0.db.lab_results ++
                     [new_lab_result sess st0.db pid tt td rd notes nm],
                   notifications := st0.db.notifications ++
                     [new_notification st0.db
                        (new_lab_result sess st0.db pid tt td rd notes nm).id
                        (notification_recipient puser)] },
         blobs := bl }) := by
  have hpat2 : get_patient_by_id
      { st0.db with lab_results := st0.db.lab_results ++
        [new_lab_result sess st0.db pid tt td rd notes nm] } pid = some patient := hpat
  have huser2 : get_user_by_id
      { st0.db with lab_results := st0.db.lab_results ++
        [new_lab_result sess st0.db pid tt td rd notes nm] } patient.user_id = some puser := huser
  simp [upload_commit_phase, hpat2, huser2, new_notification_update]

/-- C1: every LabResult row returned by the patient branch of the Dashboard
belongs to the Patient profile found by user id for the acting patient
user, and no row whose patient_id differs from that profile's id is ever
returned. -/
theorem patient_dashboard_scope (db : DB) (user : User) (r : LabResult)
    (hrole : user.user_type = "patient")
    (hr : r ∈ patient_dashboard_results db user) :
    ∃ p : Patient, db.patients.find? (fun q => q.user_id = user.id) = some p ∧
      p.user_id = user.id ∧ r.patient_id = p.id ∧
      ∀ q : Patient, q.id ≠ p.id → r.patient_id ≠ q.id := by
  unfold patient_dashboard_results at hr
  rw [if_pos hrole] at hr
  cases hfind : db.patients.find? (fun q => q.user_id = user.id) with
  | none =>
    rw [hfind] at hr
    simp at hr
  | some p =>
    rw [hfind] at hr
    simp only [mem_sort_desc_by, List.mem_filter] at hr
    obtain ⟨-, hpid⟩ := hr
    have hpid2 : r.patient_id = p.id := of_decide_eq_true hpid
    have hfs := List.find?_some hfind
    have huid : p.user_id = user.id := of_decide_eq_true hfs
    refine ⟨p, rfl, huid, hpid2, ?_⟩
    intro q hq hcon
    apply hq
    rw [← hcon]
    exact hpid2

/-- Witness for C1: the fixture patient sees exactly rows of its own
profile. -/
theorem patient_dashboard_scope_witness :
    (fixPatientUser.user_type = "patient" ∧
     fixResult ∈ patient_dashboard_results fixDB fixPatientUser) ∧
    (∃ p : Patient,
      fixDB.patients.find? (fun q => q.user_id = fixPatientUser.id) = some p ∧
      p.user_id = fixPatientUser.id ∧ fixResult.patient_id = p.id ∧
      ∀ q : Patient, q.id ≠ p.id → fixResult.patient_id ≠ q.id) :=
  ⟨⟨by decide, by decide⟩,
   patient_dashboard_scope fixDB fixPatientUser fixResult (by decide) (by decide)⟩

/-- C2 counterexample: with the technician fixture and a valid small file,
an execution whose second commit is refused ends with the LabResult
persisted and no Notification — the pair is not all-or-nothing and the
failure does not leave the Storage Layer unchanged. -/
theorem upload_commit_split_cex :
    (upload_result fixSess fixState 1 "CBC" 5 6 "" (some fixFile)
        "TS" "SALT" true false).fst = UploadOutcome.commitFailed ∧
    (upload_result fixSess fixState 1 "CBC" 5 6 "" (some fixFile)
        "TS" "SALT" true false).snd.db.lab_results ≠ fixState.db.lab_results ∧
    (upload_result fixSess fixState 1 "CBC" 5 6 "" (some fixFile)
        "TS" "SALT" true false).snd.db.notifications = fixState.db.notifications ∧
    (upload_result fixSess fixState 1 "CBC" 5 6 "" (some fixFile)
        "TS" "SALT" true false).snd.db ≠ fixState.db := by
  decide

/-- C2 as amended: the Upload Workflow persists the LabResult and the
Notification in two separate commits rather than one atomic unit.  When the
first commit is refused, no row is persisted (the database is unchanged);
when both commits succeed, both rows are persisted; but a failure between
the two commits leaves the LabResult persisted with no Notification
written, so the pair is not all-or-nothing. -/
theorem upload_two_phase_commit (sess : SessionState) (st0 : AppState)
    (pid td rd : Nat) (tt notes ts salt : String) (f : UploadedFile)
    (patient : Patient) (puser : User) (c2 : Bool)
    (hid : truthy_id sess.user_id = true)
    (hrole : sess.user_type = "lab_tech")
    (htt : tt ≠ "")
    (hext : allowed_file f.name = true)
    (hsize : f.data.length ≤ MAX_CONTENT_LENGTH)
    (hpat : get_patient_by_id st0.db pid = some patient)
    (huser : get_user_by_id st0.db patient.user_id = some puser) :
    ((upload_result sess st0 pid tt td rd notes (some f) ts salt false c2).snd.db
        = st0.db) ∧
    ((upload_result sess st0 pid tt td rd notes (some f) ts salt true false).fst
        = UploadOutcome.commitFailed ∧
     (upload_result sess st0 pid tt td rd notes (some f) ts salt true false).snd.db.lab_results
        ≠ st0.db.lab_results ∧
     (upload_result sess st0 pid tt td rd notes (some f) ts salt true false).snd.db.notifications
        = st0.db.notifications) ∧
    ((upload_result sess st0 pid tt td rd notes (some f) ts salt true true).fst
        = UploadOutcome.success ∧
     (upload_result sess st0 pid tt td rd notes (some f) ts salt true true).snd.db.lab_results
        ≠ st0.db.lab_results ∧
     (upload_result sess st0 pid tt td rd notes (some f) ts salt true true).snd.db.notifications
        ≠ st0.db.notifications) := by
  refine ⟨?_, ⟨?_, ?_, ?_⟩, ⟨?_, ?_, ?_⟩⟩
  · rw [upload_result_guards_ok sess st0 pid td rd tt notes ts salt f false c2
          hid hrole htt hext hsize,
        upload_commit_phase_commit1_fail]
  · rw [upload_result_guards_ok sess st0 pid td rd tt notes ts salt f true false
          hid hrole htt hext hsize,
        upload_commit_phase_commit2_fail sess st0 pid td rd tt notes
          (unique_filename ts salt f.name)
          ((unique_filename ts salt f.name, f.data) :: st0.blobs)
          patient puser hpat huser]
  · rw [upload_result_guards_ok sess st0 pid td rd tt notes ts salt f true false
          hid hrole htt hext hsize,
        upload_commit_phase_commit2_fail sess st0 pid td rd tt notes
          (unique_filename ts salt f.name)
          ((unique_filename ts salt f.name, f.data) :: st0.blobs)
          patient puser hpat huser]
    intro h
    have hlen := congrArg List.length h
    simp only [List.length_append, List.length_singleton] at hlen
    omega
  · rw [upload_result_guards_ok sess st0 pid td rd tt notes ts salt f true false
          hid hrole htt hext hsize,
        upload_commit_phase_commit2_fail sess st0 pid td rd tt notes
          (unique_filename ts salt f.name)
          ((unique_filename ts salt f.name, f.data) :: st0.blobs)
          patient puser hpat huser]
  · rw [upload_result_guards_ok sess st0 pid td rd tt notes ts salt f true true
          hid hrole htt hext hsize,
        upload_commit_phase_both_ok sess st0 pid td rd tt notes
          (unique_filename ts salt f.name)
          ((unique_filename ts salt f.name, f.data) :: st0.blobs)
          patient puser hpat huser]
  · rw [upload_result_guards_ok sess st0 pid td rd tt notes ts salt f true true
          hid hrole htt hext hsize,
        upload_commit_phase_both_ok sess st0 pid td rd tt notes
          (unique_filename ts salt f.name)
          ((unique_filename ts salt f.name, f.data) :: st0.blobs)
          patient puser hpat huser]
    intro h
    have hlen := congrArg List.length h
    simp only [List.length_append, List.length_singleton] at hlen
    omega
  · rw [upload_result_guards_ok sess st0 pid td rd tt notes ts salt f true true
          hid hrole htt hext hsize,
        upload_commit_phase_both_ok sess st0 pid td rd tt notes
          (unique_filename ts salt f.name)
          ((unique_filename ts salt f.name, f.data) :: st0.blobs)
          patient puser hpat huser]
    intro h
    have hlen := congrArg List.length h
    simp only [List.length_append, List.length_singleton] at hlen
    omega

/-- Witness for the amended C2 at the technician fixture. -/
theorem upload_two_phase_commit_witness :
    (truthy_id fixSess.user_id = true ∧ fixSess.user_type = "lab_tech" ∧
     ("CBC" : String) ≠ "" ∧ allowed_file fixFile.name = true ∧
     fixFile.data.length ≤ MAX_CONTENT_LENGTH ∧
     get_patient_by_id fixState.db 1 = some fixPatient ∧
     get_user_by_id fixState.db fixPatient.user_id = some fixPatientUser) ∧
    ((upload_result fixSess fixState 1 "CBC" 5 6 "" (some fixFile)
        "TS" "SALT" false true).snd.db = fixState.db) ∧
    ((upload_result fixSess fixState 1 "CBC" 5 6 "" (some fixFile)
        "TS" "SALT" true false).fst = UploadOutcome.commitFailed ∧
     (upload_result fixSess fixState 1 "CBC" 5 6 "" (some fixFile)
        "TS" "SALT" true false).snd.db.lab_results ≠ fixState.db.lab_results ∧
     (upload_result fixSess fixState 1 "CBC" 5 6 "" (some fixFile)
        "TS" "SALT" true false).snd.db.notifications = fixState.db.notifications) ∧
    ((upload_result fixSess fixState 1 "CBC" 5 6 "" (some fixFile)
        "TS" "SALT" true true).fst = UploadOutcome.success ∧
     (upload_result fixSess fixState 1 "CBC" 5 6 "" (some fixFile)
        "TS" "SALT" true true).snd.db.lab_results ≠ fixState.db.lab_results ∧
     (upload_result fixSess fixState 1 "CBC" 5 6 "" (some fixFile)
        "TS" "SALT" true true).snd.db.notifications ≠ fixState.db.notifications) :=
  ⟨⟨by decide, by decide, by decide, by decide, by decide, by decide, by decide⟩,
   upload_two_phase_commit fixSess fixState 1 5 6 "CBC" "" "TS" "SALT" fixFile
     fixPatient fixPatientUser true (by decide) (by decide) (by decide) (by decide)
     (by decide) (by decide) (by decide)⟩

/-- C7: a successful upload persists a LabResult with status "completed",
file reference equal to the stored name returned by save_uploaded_file and
lab_technician equal to the session username, together with a Notification
of type "portal" and status "sent" whose recipient is the patient's user
phone when non-empty and otherwise that user's email. -/
theorem upload_success_fields (sess : SessionState) (st0 : AppState)
    (pid td rd : Nat) (tt notes ts salt : String) (f : UploadedFile)
    (patient : Patient) (puser : User)
    (hid : truthy_id sess.user_id = true)
    (hrole : sess.user_type = "lab_tech")
    (htt : tt ≠ "")
    (hext : allowed_file f.name = true)
    (hsize : f.data.length ≤ MAX_CONTENT_LENGTH)
    (hpat : get_patient_by_id st0.db pid = some patient)
    (huser : get_user_by_id st0.db patient.user_id = some puser) :
    ∃ lr n,
      upload_result sess st0 pid tt td rd notes (some f) ts salt true true =
        (.success,
         { db := { st0.db with
                     lab_results := st0.db.lab_results ++ [lr],
                     notifications := st0.db.notifications ++ [n] },
           blobs := (lr.file_path, f.data) :: st0.blobs }) ∧
      lr.status = "completed" ∧
      lr.file_path = unique_filename ts salt f.name ∧
      save_uploaded_file ts salt (some f) st0.blobs =
        .ok (lr.file_path, (lr.file_path, f.data) :: st0.blobs) ∧
      lr.lab_technician = sess.username ∧
      lr.patient_id = pid ∧
      n.lab_result_id = lr.id ∧
      n.notification_type = "portal" ∧
      n.status = "sent" ∧
      n.recipient = (if puser.phone ≠ "" then puser.phone else puser.email) := by
  refine ⟨new_lab_result sess st0.db pid tt td rd notes (unique_filename ts salt f.name),
          new_notification st0.db
            (new_lab_result sess st0.db pid tt td rd notes
              (unique_filename ts salt f.name)).id
            (notification_recipient puser),
          ?_, rfl, rfl, ?_, rfl, rfl, rfl, rfl, rfl, rfl⟩
  · rw [upload_result_guards_ok sess st0 pid td rd tt notes ts salt f true true
          hid hrole htt hext hsize,
        upload_commit_phase_both_ok sess st0 pid td rd tt notes
          (unique_filename ts salt f.name)
          ((unique_filename ts salt f.name, f.data) :: st0.blobs)
          patient puser hpat huser]
    rfl
  · exact save_uploaded_file_ok ts salt f st0.blobs hext hsize

/-- Witness for C7 at the technician fixture (the patient has no phone, so
the recipient falls back to the account email). -/
theorem upload_success_fields_witness :
    (truthy_id fixSess.user_id = true ∧ fixSess.user_type = "lab_tech" ∧
     ("CBC" : String) ≠ "" ∧ allowed_file fixFile.name = true ∧
     fixFile.data.length ≤ MAX_CONTENT_LENGTH ∧
     get_patient_by_id fixState.db 1 = some fixPatient ∧
     get_user_by_id fixState.db fixPatient.user_id = some fixPatientUser) ∧
    (∃ lr n,
      upload_result fixSess fixState 1 "CBC" 5 6 "" (some fixFile)
          "TS" "SALT" true true =
        (.success,
         { db := { fixState.db with
                     lab_results := fixState.db.lab_results ++ [lr],
                     notifications := fixState.db.notifications ++ [n] },
           blobs := (lr.file_path, fixFile.data) :: fixState.blobs }) ∧
      lr.status = "completed" ∧
      lr.file_path = unique_filename "TS" "SALT" fixFile.name ∧
      save_uploaded_file "TS" "SALT" (some fixFile) fixState.blobs =
        .ok (lr.file_path, (lr.file_path, fixFile.data) :: fixState.blobs) ∧
      lr.lab_technician = fixSess.username ∧
      lr.patient_id = 1 ∧
      n.lab_result_id = lr.id ∧
      n.notification_type = "portal" ∧
      n.status = "sent" ∧
      n.recipient =
        (if fixPatientUser.phone ≠ "" then fixPatientUser.phone
         else fixPatientUser.email)) :=
  ⟨⟨by decide, by decide, by decide, by decide, by decide, by decide, by decide⟩,
   upload_success_fields fixSess fixState 1 5 6 "CBC" "" "TS" "SALT" fixFile
     fixPatient fixPatientUser (by decide) (by decide) (by decide) (by decide)
     (by decide) (by decide) (by decide)⟩

/-- Witness for the amended C9 at two concrete salts and the filename
"my report.pdf". -/
theorem unique_filename_distinct_and_sanitized_witness :
    (("aaaabbbbcccc" : String) ≠ "ddddeeeeffff") ∧
    (unique_filename "20240101000000" "aaaabbbbcccc" "my report.pdf" ≠
       unique_filename "20240101000000" "ddddeeeeffff" "my report.pdf" ∧
     ∀ c ∈ (secure_filename "my report.pdf").toList, c ≠ '/' ∧ c ≠ '\\' ∧ c ≠ ' ') :=
  ⟨by decide,
   unique_filename_distinct_and_sanitized "20240101000000" "aaaabbbbcccc"
     "ddddeeeeffff" "my report.pdf" (by decide)⟩

end DigitalLab
